import Mathlib

/-
Verification of the DMGT-BASIC-FORM response-store handlers.

The repository holds two revisions of the same serverless handler:
  * src/infrastructure/lambda-responses-enhanced.py          -- namespace `Enhanced`
  * src/infrastructure/lambda/responses-function/index.py    -- namespace `IndexPy`

Each definition below is a shallow embedding of one Python function (the
source file and line numbers are given in its doc comment).  External storage
(S3) is modelled by explicit inputs: a read is an `S3Result` value, a listing
is a `List String` of keys (`none` standing for a failed call), and writes
appear in the handler outputs.  Python floats are modelled by exact rationals
(`ℚ`); for the dictionary sizes a request can carry, the float computations of
the source agree with the exact rational values.  Python `str` values are
modelled by `String`, and the string operations used by the source
(`split`, `replace`, `startswith`, `strip`, `int(...)`) are re-implemented
below by structural recursion on the character list so that every definition
evaluates on concrete inputs.
-/

/-! ## Definitions -/

/-- A scalar JSON value, as found in a request body or a stored record.
Python `None`/`bool`/`int`/`str` are the shapes the handlers actually
inspect. -/
inductive JScalar where
  | jnull : JScalar
  | jbool : Bool → JScalar
  | jint : Int → JScalar
  | jstr : String → JScalar
deriving Repr, DecidableEq

/-- Python truthiness (`bool(x)`) of a scalar. -/
def JScalar.truthy : JScalar → Bool
  | .jnull => false
  | .jbool b => b
  | .jint i => i != 0
  | .jstr s => s != ""

/-- Python `str(x)` of a scalar. -/
def JScalar.pystr : JScalar → String
  | .jnull => "None"
  | .jbool b => if b then "True" else "False"
  | .jint i => toString i
  | .jstr s => s

/-- Python truthiness of an optional string (`body.get(k)` that is either
absent/None or a string): absent and `""` are falsy. -/
def truthyStr : Option String → Bool
  | none => false
  | some s => s != ""

/-- A `responses` mapping: question id to answer value.  (Python dict keys
are unique; nothing below depends on uniqueness.) -/
abbrev Responses := List (String × JScalar)

/-- `str(r).strip()` is truthy, i.e. the string has a non-whitespace
character.  (Python strips a slightly larger whitespace set than
`Char.isWhitespace`; the extra characters do not occur in form answers.) -/
def hasNonWhitespace (s : String) : Bool :=
  s.data.any (fun c => !c.isWhitespace)

/-- The per-entry test of both revisions' answered-count comprehension:
`r and str(r).strip()` (enhanced line 82, index.py line 703). -/
def isAnswered (v : JScalar) : Bool :=
  v.truthy && hasNonWhitespace v.pystr

/-- `len([r for r in responses.values() if r and str(r).strip()])`. -/
def answeredCount (rs : Responses) : Nat :=
  (rs.filter (fun p => isAnswered p.2)).length

/-- lambda-responses-enhanced.py lines 80-83:
`completion_percentage = int((answered_responses / total_responses * 100)) if total_responses > 0 else 0`.
`int(...)` truncates the (nonnegative) float towards zero, i.e. takes the
floor of the exact quotient. -/
def Enhanced.completionPct (rs : Responses) : Int :=
  if 0 < rs.length then ⌊((answeredCount rs : ℚ) / (rs.length : ℚ)) * 100⌋ else 0

/-- index.py lines 701-704:
`completion_percentage = (answered_questions / total_questions * 100) if total_questions > 0 else 0`
kept as a float (here: exact rational). -/
def IndexPy.completionPct (rs : Responses) : ℚ :=
  if 0 < rs.length then ((answeredCount rs : ℚ) / (rs.length : ℚ)) * 100 else 0

/-- The sample mapping of claim C1's counterexample: three questions, one
answered. -/
def c1Responses : Responses :=
  [("q1", JScalar.jstr "a"), ("q2", JScalar.jstr ""), ("q3", JScalar.jstr "")]

/-- Python `s.split(sep)`, fuel-driven so that it is structurally recursive
(the fuel is the length of the string, which bounds the number of steps).
`acc` accumulates the current (reversed) segment. -/
def splitGo (pat : List Char) : Nat → List Char → List Char → List (List Char)
  | 0, s, acc => [acc.reverse ++ s]
  | _ + 1, [], acc => [acc.reverse]
  | fuel + 1, c :: rest, acc =>
    if pat.isPrefixOf (c :: rest) then
      acc.reverse :: splitGo pat fuel (List.drop pat.length (c :: rest)) []
    else
      splitGo pat fuel rest (c :: acc)

/-- Python `s.split(sep)` for a non-empty separator. -/
def splitOnChars (pat s : List Char) : List (List Char) :=
  splitGo pat s.length s []

/-- The numeric value of a decimal digit character. -/
def digitVal (c : Char) : Option Nat :=
  if '0' ≤ c ∧ c ≤ '9' then some (c.toNat - '0'.toNat) else none

/-- Accumulates the decimal value of a digit string; `none` on the first
non-digit. -/
def parseDigitsGo : List Char → Nat → Option Nat
  | [], acc => some acc
  | c :: rest, acc =>
    match digitVal c with
    | some d => parseDigitsGo rest (acc * 10 + d)
    | none => none

/-- All-digit (non-empty) string to its value. -/
def parseDigits : List Char → Option Nat
  | [] => none
  | l => parseDigitsGo l 0

/-- Python `int(s)` on a canonical integer literal: optional minus sign then
decimal digits; anything else raises `ValueError` (modelled as `none`).
(Python also tolerates surrounding whitespace, a plus sign and digit-group
underscores; such key names are never produced by these handlers.) -/
def parseIntChars (l : List Char) : Option Int :=
  match l with
  | '-' :: rest => (parseDigits rest).map (fun n => -(n : Int))
  | _ => (parseDigits l).map (fun n => (n : Int))

/-- lambda-responses-enhanced.py line 252:
`int(file_key.split('employee_')[1].split('.')[0])`; the `IndexError` of a
key without `employee_` and the `ValueError` of a non-integer id are both
`none` (the loop skips them). -/
def Enhanced.parseKey (key : String) : Option Int :=
  match splitOnChars "employee_".data key.data with
  | _ :: second :: _ => parseIntChars ((splitOnChars ['.'] second).headD [])
  | _ => none

/-- index.py lines 770-772: `filename = key.split('/')[-1]`,
`employee_id_str = filename.replace('.json', '')`, `int(employee_id_str)`.
`replace` removes every occurrence of `.json`, i.e. concatenates the
split segments. -/
def IndexPy.parseKey (key : String) : Option Int :=
  parseIntChars
    ((splitOnChars ".json".data ((splitOnChars ['/'] key.data).getLastD [])).flatten)

/-- lambda-responses-enhanced.py lines 242-259 (`get_next_employee_id`):
lists keys under `{companyId}/employee_` (`none` = `ClientError`, an empty
list = no `Contents` in the response), keeps keys with that prefix, parses
the integer id of each (skipping malformed names), and returns the maximum
plus one, starting the maximum at `-1`; returns `0` when the listing is
empty or the listing call fails. -/
def Enhanced.get_next_employee_id (listing : Option (List String)) (companyId : String) : Int :=
  match listing with
  | none => 0
  | some keys =>
    if keys.isEmpty then 0
    else
      let employeeFiles := keys.filter
        (fun k => (companyId ++ "/employee_").data.isPrefixOf k.data)
      (employeeFiles.foldl
        (fun m k =>
          match Enhanced.parseKey k with
          | some i => max m i
          | none => m) (-1)) + 1

/-- index.py lines 755-782 (`get_next_employee_id`): parses the id of every
listed key (skipping malformed names), starting the maximum at `0`, and
returns the maximum plus one; on a listing failure falls back to
`int(datetime.utcnow().timestamp()) % 10000` (`nowEpoch` is the current
Unix time in whole seconds). -/
def IndexPy.get_next_employee_id (listing : Option (List String)) (nowEpoch : Nat) : Int :=
  match listing with
  | none => (nowEpoch : Int) % 10000
  | some keys =>
    (keys.foldl
      (fun m k =>
        match IndexPy.parseKey k with
        | some i => max m i
        | none => m) 0) + 1

/-- The employee ids a listing contributes in the enhanced revision: prefix
filter then id parse, as in `get_next_employee_id`. -/
def Enhanced.listedIds (companyId : String) (keys : List String) : List Int :=
  (keys.filter (fun k => (companyId ++ "/employee_").data.isPrefixOf k.data)).filterMap
    Enhanced.parseKey

/-- The employee ids a listing contributes in the index.py revision. -/
def IndexPy.listedIds (keys : List String) : List Int :=
  keys.filterMap IndexPy.parseKey

/-- Result of one storage read or listing: the value, the `NoSuchKey` signal,
or any other `ClientError`/exception with its message. -/
inductive S3Result (α : Type) where
  | found : α → S3Result α
  | noSuchKey : S3Result α
  | clientError : String → S3Result α
deriving Repr, DecidableEq

/-- The file-metadata mapping a save request may carry (only `questionId` is
inspected by the handlers). -/
structure FileMetadata where
  questionId : String
  fileName : String
  fileSize : Nat
  fileType : String
deriving Repr, DecidableEq

/-- The company record written by lambda-responses-enhanced.py lines 86-101.
`timestamp` is optional because the read side defaults it
(`existing_data.get('timestamp', timestamp)`); every record this revision
writes carries all the other fields. -/
structure Enhanced.CompanyData where
  companyId : String
  formType : String
  timestamp : Option String
  lastModified : String
  responses : Responses
  completionPercentage : Int
  inProgress : Bool
  explicitlyCompleted : Bool
  fileUploads : List (String × FileMetadata)
deriving Repr, DecidableEq

/-- The employee record written by lambda-responses-enhanced.py lines 140-153. -/
structure Enhanced.EmployeeData where
  companyId : String
  employeeId : Int
  formType : String
  timestamp : Option String
  lastModified : String
  responses : Responses
  fileUploads : List (String × FileMetadata)
deriving Repr, DecidableEq

/-- lambda-responses-enhanced.py lines 64-109, `form_type == 'company'`
branch of `save_response`: the company record that gets written.  `existing`
is the current blob under `{companyId}/company.json` (`none` when the read
raised `NoSuchKey`); `now` is `datetime.utcnow().isoformat()`. -/
def Enhanced.save_company (companyId : String) (responses : Responses)
    (fileMetadata : Option FileMetadata) (existing : Option Enhanced.CompanyData)
    (now : String) : Enhanced.CompanyData :=
  let pct := Enhanced.completionPct responses
  let base : Enhanced.CompanyData :=
    { companyId := companyId
      formType := "company"
      timestamp := some
        (match existing with
         | some e => e.timestamp.getD now
         | none => now)
      lastModified := now
      responses := responses
      completionPercentage := pct
      inProgress := decide (pct > 0) && decide (pct < 100)
      explicitlyCompleted := false
      fileUploads := [] }
  match fileMetadata with
  | some fm => { base with fileUploads := [(fm.questionId, fm)] }
  | none => base

/-- The success envelope of the company branch of `save_response`
(lines 111-117). -/
structure Enhanced.SaveCompanyOut where
  statusCode : Nat
  filename : String
  completionPercentage : Int
  inProgress : Bool
  explicitlyCompleted : Bool
deriving Repr, DecidableEq

/-- lambda-responses-enhanced.py lines 111-117: the 200 response returned
after a company save, echoing the computed fields. -/
def Enhanced.save_company_response (companyId : String) (responses : Responses)
    (fileMetadata : Option FileMetadata) (existing : Option Enhanced.CompanyData)
    (now : String) : Enhanced.SaveCompanyOut :=
  let d := Enhanced.save_company companyId responses fileMetadata existing now
  { statusCode := 200
    filename := companyId ++ "/company.json"
    completionPercentage := d.completionPercentage
    inProgress := d.inProgress
    explicitlyCompleted := d.explicitlyCompleted }

/-- A record written by index.py.  The handlers of this revision write
different subsets of the fields, so the ones not always present are
`Option` (`none` = key absent from the JSON object).  `timestamp` is never
written by any index.py handler; it is kept so that what happens to a stored
blob that carries one can be stated. -/
structure IndexPy.Record where
  companyId : String
  formType : String
  responses : Responses
  currentSection : Option Int
  lastModified : String
  completed : Option JScalar
  completedAt : Option String
  completionPercentage : Option ℚ
  employeeId : Option JScalar
  timestamp : Option String
deriving Repr, DecidableEq

/-- Output of `handle_save_company` / `handle_save_employee`: HTTP status,
error message, and the single `put_object` performed (key and record), if
any. -/
structure IndexPy.SaveOut where
  statusCode : Nat
  error : Option String
  written : Option (String × IndexPy.Record)
  success : Bool
deriving Repr, DecidableEq

/-- index.py lines 260-314 (`handle_save_company`): validates `companyId`,
then rebuilds the whole record from the request body alone (no storage read)
and overwrites `company-responses/{companyId}.json` with it.  `completed`
is `formData.get('isCompleted', False)`; a truthy value also stamps
`completedAt`. -/
def IndexPy.handle_save_company (companyId : Option String) (formData : Responses)
    (sectionNo : Int) (now : String) : IndexPy.SaveOut :=
  if truthyStr companyId = false then
    { statusCode := 400, error := some "Missing companyId", written := none,
      success := false }
  else
    let cid := companyId.getD ""
    let completedVal := (formData.lookup "isCompleted").getD (JScalar.jbool false)
    let r : IndexPy.Record :=
      { companyId := cid
        formType := "company"
        responses := formData
        currentSection := some sectionNo
        lastModified := now
        completed := some completedVal
        completedAt := if completedVal.truthy then some now else none
        completionPercentage := none
        employeeId := none
        timestamp := none }
    { statusCode := 200, error := none,
      written := some ("company-responses/" ++ cid ++ ".json", r),
      success := true }

/-- index.py lines 316-373 (`handle_save_employee`): rejects with 400 when
`companyId` or `employeeId` is falsy (`not all([company_id, employee_id])`),
otherwise rebuilds and overwrites
`employee-responses/{companyId}/{employeeId}.json`. -/
def IndexPy.handle_save_employee (companyId : Option String) (employeeId : JScalar)
    (formData : Responses) (sectionNo : Int) (now : String) : IndexPy.SaveOut :=
  if !(truthyStr companyId && employeeId.truthy) then
    { statusCode := 400, error := some "Missing companyId or employeeId",
      written := none, success := false }
  else
    let cid := companyId.getD ""
    let completedVal := (formData.lookup "isCompleted").getD (JScalar.jbool false)
    let r : IndexPy.Record :=
      { companyId := cid
        formType := "employee"
        responses := formData
        currentSection := some sectionNo
        lastModified := now
        completed := some completedVal
        completedAt := if completedVal.truthy then some now else none
        completionPercentage := none
        employeeId := some employeeId
        timestamp := none }
    { statusCode := 200, error := none,
      written := some
        ("employee-responses/" ++ cid ++ "/" ++ employeeId.pystr ++ ".json", r),
      success := true }

/-- Python `str(employee_id)` as used in the index.py form-response key
(`employee_id` is an assigned integer or `None`). -/
def IndexPy.optIdStr : Option Int → String
  | some i => toString i
  | none => "None"

/-- index.py lines 693-714: the record `handle_form_response` builds and
writes.  `completed`/`completedAt` are only set (to `True` / the current
time) when `complete_audit or force_complete or (completion_percentage ==
100 and not prevent_auto_complete)`. -/
def IndexPy.form_response_record (companyId formType : String) (responses : Responses)
    (employeeId : Option Int) (completeAudit forceComplete preventAutoComplete : Bool)
    (now : String) : IndexPy.Record :=
  let pct := IndexPy.completionPct responses
  let isCompleted := completeAudit || forceComplete
      || (decide (pct = 100) && !preventAutoComplete)
  { companyId := companyId
    formType := formType
    responses := responses
    currentSection := none
    lastModified := now
    completed := if isCompleted then some (JScalar.jbool true) else none
    completedAt := if isCompleted then some now else none
    completionPercentage := some pct
    employeeId := some
      (if formType == "employee" then
        (match employeeId with
         | some i => JScalar.jint i
         | none => JScalar.jnull)
       else JScalar.jnull)
    timestamp := none }

/-- Output of `handle_form_response`: status, error, the write performed,
and the echoed result fields (`employeeId` is only present in the body for
employee forms, hence the nested `Option`). -/
structure IndexPy.FormOut where
  statusCode : Nat
  error : Option String
  written : Option (String × IndexPy.Record)
  success : Bool
  completionPercentage : ℚ
  employeeId : Option (Option Int)
deriving Repr, DecidableEq

/-- index.py lines 672-753 (`handle_form_response`): validates
`companyId`/`formType` (a `ValueError` caught by the handler's own
`except Exception` gives a 500), assigns a fresh employee id via
`get_next_employee_id` when `formType == 'employee'`, `isNewEmployee` and no
id was supplied, builds the record, and writes it under the company or
employee key. -/
def IndexPy.handle_form_response (companyId formType : Option String)
    (responses : Responses) (employeeId : Option Int) (isNewEmployee : Bool)
    (completeAudit forceComplete preventAutoComplete : Bool)
    (listing : Option (List String)) (nowEpoch : Nat) (now : String) : IndexPy.FormOut :=
  if !(truthyStr companyId && truthyStr formType) then
    { statusCode := 500, error := some "Missing required fields: companyId, formType",
      written := none, success := false, completionPercentage := 0, employeeId := none }
  else
    let cid := companyId.getD ""
    let ft := formType.getD ""
    let eid : Option Int :=
      if ft == "employee" && isNewEmployee && employeeId.isNone then
        some (IndexPy.get_next_employee_id listing nowEpoch)
      else employeeId
    let r := IndexPy.form_response_record cid ft responses eid
      completeAudit forceComplete preventAutoComplete now
    let key :=
      if ft == "company" then "company-responses/" ++ cid ++ ".json"
      else "employee-responses/" ++ cid ++ "/" ++ IndexPy.optIdStr eid ++ ".json"
    { statusCode := 200, error := none, written := some (key, r), success := true,
      completionPercentage := IndexPy.completionPct responses,
      employeeId := if ft == "employee" then some eid else none }

/-- Insertion step for the embedded `sort()` calls. -/
def insertSorted {α : Type} [LE α] [DecidableRel (α := α) (· ≤ ·)] (x : α) :
    List α → List α
  | [] => [x]
  | y :: ys => if x ≤ y then x :: y :: ys else y :: insertSorted x ys

/-- Python `list.sort()` (stable comparison sort). -/
def pySort {α : Type} [LE α] [DecidableRel (α := α) (· ≤ ·)] (l : List α) : List α :=
  l.foldr insertSorted []

/-- Python `max(list)` on a non-empty list (`0` is never used: callers guard
for emptiness first). -/
def listMaxInt : List Int → Int
  | [] => 0
  | x :: xs => xs.foldl max x

/-- The aggregate `get_company_status` of lambda-responses-enhanced.py
lines 261-314.  Both storage calls sit in `try/except ClientError` blocks
whose handlers swallow every client error (not only `NoSuchKey`) and leave
the defaults in place, so the response is a 200 whenever `companyId` was
supplied. -/
structure Enhanced.StatusOut where
  statusCode : Nat
  error : Option String
  companyCompleted : Bool
  companyInProgress : Bool
  completionPercentage : Int
  lastModified : Option String
  employeeCount : Nat
  employeeIds : List Int
  nextEmployeeId : Int
deriving Repr, DecidableEq

/-- lambda-responses-enhanced.py lines 261-314 (`get_company_status`). -/
def Enhanced.get_company_status (companyId : Option String)
    (companyRead : S3Result Enhanced.CompanyData)
    (listing : S3Result (List String)) : Enhanced.StatusOut :=
  if truthyStr companyId = false then
    { statusCode := 400, error := some "companyId required", companyCompleted := false,
      companyInProgress := false, completionPercentage := 0, lastModified := none,
      employeeCount := 0, employeeIds := [], nextEmployeeId := 0 }
  else
    let quad :=
      match companyRead with
      | .found d =>
        (d.explicitlyCompleted, d.inProgress, d.completionPercentage, some d.lastModified)
      | _ => (false, false, 0, none)
    let ids :=
      match listing with
      | .found keys => pySort (keys.filterMap Enhanced.parseKey)
      | _ => []
    { statusCode := 200, error := none,
      companyCompleted := quad.1, companyInProgress := quad.2.1,
      completionPercentage := quad.2.2.1, lastModified := quad.2.2.2,
      employeeCount := ids.length, employeeIds := ids,
      nextEmployeeId := if ids.isEmpty then 0 else listMaxInt ids + 1 }

/-- The dict built by index.py's `get_company_status` (lines 405-472).
`companyCompleted` carries the raw stored `completed` value
(`company_data.get('completed', False)`). -/
structure IndexPy.StatusInfo where
  companyCompleted : JScalar
  companyInProgress : Bool
  completionPercentage : ℚ
  lastModified : Option String
  employeeCount : Nat
  employeeIds : List String
deriving Repr, DecidableEq

/-- The employee part and assembly of index.py's `get_company_status`:
listing failures are swallowed by the inner `except Exception`
(lines 451-452), leaving an empty id list. -/
def IndexPy.statusWith (pct : ℚ) (completedVal : JScalar) (lastMod : Option String)
    (listing : S3Result (List String)) : IndexPy.StatusInfo :=
  let ids :=
    match listing with
    | .found keys =>
      keys.map
        (fun k =>
          String.mk ((splitOnChars ".json".data ((splitOnChars ['/'] k.data).getLastD [])).flatten))
    | _ => []
  { companyCompleted := completedVal
    companyInProgress := decide (pct > 0) && !completedVal.truthy
    completionPercentage := pct
    lastModified := lastMod
    employeeCount := ids.length
    employeeIds := pySort ids }

/-- index.py lines 405-472 (`get_company_status`): the company read catches
only `NoSuchKey` (line 425); any other storage error propagates to the
function's outer `except Exception` (lines 463-472), which returns the
all-defaults dict — it does not surface a 500. -/
def IndexPy.get_company_status (companyRead : S3Result IndexPy.Record)
    (listing : S3Result (List String)) : IndexPy.StatusInfo :=
  match companyRead with
  | .clientError _ =>
    { companyCompleted := JScalar.jbool false, companyInProgress := false,
      completionPercentage := 0, lastModified := none, employeeCount := 0,
      employeeIds := [] }
  | .found d =>
    IndexPy.statusWith (d.completionPercentage.getD 0)
      (d.completed.getD (JScalar.jbool false)) (some d.lastModified) listing
  | .noSuchKey => IndexPy.statusWith 0 (JScalar.jbool false) none listing

/-- A fetch-handler response body with its HTTP status. -/
structure Enhanced.GetOut where
  statusCode : Nat
  error : Option String
  found : Option Bool
  message : Option String
  responses : Responses
  lastModified : Option String
  completionPercentage : Int
  inProgress : Bool
  explicitlyCompleted : Bool
deriving Repr, DecidableEq

/-- Default fetch-response fields. -/
def Enhanced.getOutBase : Enhanced.GetOut :=
  { statusCode := 200, error := none, found := none, message := none, responses := [],
    lastModified := none, completionPercentage := 0, inProgress := false,
    explicitlyCompleted := false }

/-- lambda-responses-enhanced.py lines 173-205 (`get_employee_data`): 400 on
missing parameters (`employee_id is None`; an empty string passes), 200 with
`found=False` and a message on `NoSuchKey`, and `raise e` — converted by the
top-level handler (lines 33-35) to a 500 carrying the message — on any other
client error. -/
def Enhanced.get_employee_data (companyId employeeId : Option String)
    (read : S3Result Enhanced.EmployeeData) : Enhanced.GetOut :=
  if truthyStr companyId = false || employeeId.isNone then
    { Enhanced.getOutBase with
        statusCode := 400, error := some "companyId and employeeId required" }
  else
    match read with
    | .found d =>
      { Enhanced.getOutBase with
          statusCode := 200, found := some true, responses := d.responses,
          lastModified := some d.lastModified }
    | .noSuchKey =>
      { Enhanced.getOutBase with
          statusCode := 200, found := some false,
          message := some ("No employee found with ID " ++ employeeId.getD ""
            ++ " for company " ++ companyId.getD "") }
    | .clientError e =>
      { Enhanced.getOutBase with statusCode := 500, error := some e }

/-- lambda-responses-enhanced.py lines 207-240 (`get_company_data`): same
shape as `get_employee_data` for the company blob. -/
def Enhanced.get_company_data (companyId : Option String)
    (read : S3Result Enhanced.CompanyData) : Enhanced.GetOut :=
  if truthyStr companyId = false then
    { Enhanced.getOutBase with statusCode := 400, error := some "companyId required" }
  else
    match read with
    | .found d =>
      { Enhanced.getOutBase with
          statusCode := 200, found := some true, responses := d.responses,
          lastModified := some d.lastModified,
          completionPercentage := d.completionPercentage, inProgress := d.inProgress,
          explicitlyCompleted := d.explicitlyCompleted }
    | .noSuchKey =>
      { Enhanced.getOutBase with
          statusCode := 200, found := some false,
          message := some ("No company data found for company " ++ companyId.getD "") }
    | .clientError e =>
      { Enhanced.getOutBase with statusCode := 500, error := some e }

/-- A fetch-handler response of index.py, with the list of storage reads the
handler performed. -/
structure IndexPy.GetOut where
  statusCode : Nat
  error : Option String
  found : Option Bool
  message : Option String
  responses : Responses
  lastModified : Option String
  completionPercentage : ℚ
  completed : Option JScalar
  s3Gets : List String
deriving Repr, DecidableEq

/-- Default index.py fetch-response fields. -/
def IndexPy.getOutBase : IndexPy.GetOut :=
  { statusCode := 200, error := none, found := none, message := none, responses := [],
    lastModified := none, completionPercentage := 0, completed := none, s3Gets := [] }

/-- index.py lines 579-623 (`handle_get_company_request`): a missing
`companyId` raises `ValueError`, which the handler's own `except Exception`
turns into a 500 (before any storage access); `NoSuchKey` gives a 200 with
`found=False`; any other storage error also lands in the `except Exception`
as a 500 with the message. -/
def IndexPy.handle_get_company_request (companyId : Option String)
    (store : String → S3Result IndexPy.Record) : IndexPy.GetOut :=
  if truthyStr companyId = false then
    { IndexPy.getOutBase with statusCode := 500, error := some "Missing companyId" }
  else
    let key := "company-responses/" ++ companyId.getD "" ++ ".json"
    match store key with
    | .found d =>
      { IndexPy.getOutBase with
          statusCode := 200, found := some true, responses := d.responses,
          lastModified := some d.lastModified,
          completionPercentage := d.completionPercentage.getD 0,
          completed := some (d.completed.getD (JScalar.jbool false)), s3Gets := [key] }
    | .noSuchKey =>
      { IndexPy.getOutBase with
          statusCode := 200, found := some false,
          message := some "No existing company responses found", s3Gets := [key] }
    | .clientError e =>
      { IndexPy.getOutBase with statusCode := 500, error := some e, s3Gets := [key] }

/-- index.py lines 625-670 (`handle_get_employee_request`): `not
all([company_id, employee_id])` — so also the integer `0` or `""` — raises
`ValueError`, which this handler's own `except Exception` converts to a 500
with no storage access; `NoSuchKey` gives 200/`found=False`. -/
def IndexPy.handle_get_employee_request (companyId : Option String) (employeeId : JScalar)
    (store : String → S3Result IndexPy.Record) : IndexPy.GetOut :=
  if !(truthyStr companyId && employeeId.truthy) then
    { IndexPy.getOutBase with
        statusCode := 500, error := some "Missing companyId or employeeId" }
  else
    let key := "employee-responses/" ++ companyId.getD "" ++ "/"
      ++ employeeId.pystr ++ ".json"
    match store key with
    | .found d =>
      { IndexPy.getOutBase with
          statusCode := 200, found := some true, responses := d.responses,
          lastModified := some d.lastModified, s3Gets := [key] }
    | .noSuchKey =>
      { IndexPy.getOutBase with
          statusCode := 200, found := some false,
          message := some "No existing employee responses found", s3Gets := [key] }
    | .clientError e =>
      { IndexPy.getOutBase with statusCode := 500, error := some e, s3Gets := [key] }

/-- A stored index.py-scheme company blob carrying a `timestamp` field, for
claim C3: the save handler discards it. -/
def c3StoredRecord : IndexPy.Record :=
  { companyId := "C1", formType := "company", responses := [],
    currentSection := some 1, lastModified := "2025-01-01T00:00:00",
    completed := some (JScalar.jbool false), completedAt := none,
    completionPercentage := none, employeeId := none,
    timestamp := some "2025-01-01T00:00:00" }

/-- An enhanced-revision company record created at time `T0`, for the C3
witness. -/
def c3EnhancedRecord : Enhanced.CompanyData :=
  Enhanced.save_company "C1" [("q1", JScalar.jstr "a")] none none "T0"

/-- A company record stored by index.py's form-submission handler with every
question answered but auto-completion suppressed: `completionPercentage =
100` and no `completed` flag — the C4 counterexample state. -/
def c4Record : IndexPy.Record :=
  IndexPy.form_response_record "C1" "company" [("q1", JScalar.jstr "a")] none
    false false true "2025-01-01T00:00:00"

/-! ## Theorems -/

/-- Helper: the truncated percentage of the enhanced revision is natural
floor-division `100 * a / t`. -/
lemma floor_ratio_eq_nat_div (a t : ℕ) :
    ⌊((a : ℚ) / (t : ℚ)) * 100⌋ = ((100 * a / t : ℕ) : ℤ) := by
  have hq : ((a : ℚ) / (t : ℚ)) * 100 = ((100 * a : ℕ) : ℚ) / ((t : ℕ) : ℚ) := by
    push_cast
    ring
  rw [hq, ← Int.natCast_floor_eq_floor (by positivity), Nat.floor_div_eq_div]

/-- C1 counterexample: for `responses = {"q1": "a", "q2": "", "q3": ""}` the
enhanced revision stores and returns `completionPercentage = 33`, while
`100 * (count of non-empty trimmed values) / (total entry count) = 100/3`.
The stored value is the truncation, not the exact quotient, so the claimed
equation fails at this input. -/
theorem c1_counterexample :
    ¬ ((Enhanced.completionPct c1Responses : ℚ)
        = 100 * (answeredCount c1Responses : ℚ) / (c1Responses.length : ℚ)) := by
  have ha : answeredCount c1Responses = 1 := by decide
  have hl : c1Responses.length = 3 := by decide
  rw [Enhanced.completionPct, ha, hl]
  norm_num

/-- C1 (amended): the completion percentage is `100 * answered / total`
truncated to an integer (floor) in the enhanced revision, and the exact
rational `100 * answered / total` in index.py's form-submission handler;
both are `0` when the mapping is empty.  (`answered` counts the entries
whose value is truthy with non-whitespace string form.) -/
theorem c1_completion_percentage (rs : Responses) :
    Enhanced.completionPct rs = ((100 * answeredCount rs / rs.length : ℕ) : ℤ)
  ∧ IndexPy.completionPct rs
      = (if rs.length = 0 then 0 else 100 * (answeredCount rs : ℚ) / (rs.length : ℚ)) := by
  constructor
  · rw [Enhanced.completionPct]
    by_cases h : 0 < rs.length
    · rw [if_pos h, floor_ratio_eq_nat_div]
    · rw [if_neg h]
      have h0 : rs.length = 0 := by omega
      rw [h0]
      simp
  · rw [IndexPy.completionPct]
    by_cases h : 0 < rs.length
    · rw [if_pos h, if_neg (by omega)]
      ring
    · rw [if_neg h, if_pos (by omega)]

/-- Helper: folding the per-key parse-and-max loop equals folding `max` over
the parsed ids. -/
lemma foldl_parse_eq_foldl_filterMap (parse : String → Option Int) (keys : List String)
    (a : Int) :
    keys.foldl
        (fun m k =>
          match parse k with
          | some i => max m i
          | none => m) a
      = (keys.filterMap parse).foldl max a := by
  induction keys generalizing a with
  | nil => rfl
  | cons k ks ih =>
    cases h : parse k <;> simp [List.filterMap_cons, h, ih]

/-- Helper: the start value never exceeds a `max`-fold. -/
lemma init_le_foldl_max (l : List Int) (a : Int) : a ≤ l.foldl max a := by
  induction l generalizing a with
  | nil => exact le_refl a
  | cons y ys ih => exact le_trans (le_max_left a y) (ih (max a y))

/-- Helper: every member is below the `max`-fold. -/
lemma mem_le_foldl_max (l : List Int) : ∀ (a x : Int), x ∈ l → x ≤ l.foldl max a := by
  induction l with
  | nil =>
    intro a x hx
    cases hx
  | cons y ys ih =>
    intro a x hx
    rcases List.mem_cons.mp hx with h | h
    · subst h
      exact le_trans (le_max_right a x) (init_le_foldl_max ys (max a x))
    · exact ih (max a y) x h

/-- Helper: a `max`-fold is the start value or a member. -/
lemma foldl_max_mem_or_init (l : List Int) (a : Int) :
    l.foldl max a = a ∨ l.foldl max a ∈ l := by
  induction l generalizing a with
  | nil => exact Or.inl rfl
  | cons y ys ih =>
    rcases ih (max a y) with h | h
    · rcases max_choice a y with h2 | h2
      · exact Or.inl (by rw [List.foldl_cons, h, h2])
      · exact Or.inr (by rw [List.foldl_cons, h, h2]; exact List.mem_cons_self y ys)
    · exact Or.inr (List.mem_cons_of_mem y h)

/-- Helper: the enhanced next-id on a non-empty listing is one more than the
`max`-fold (from `-1`) of the parsed ids. -/
lemma enhanced_next_eq (cid : String) (k : String) (ks : List String) :
    Enhanced.get_next_employee_id (some (k :: ks)) cid
      = (Enhanced.listedIds cid (k :: ks)).foldl max (-1) + 1 := by
  rw [Enhanced.get_next_employee_id, Enhanced.listedIds]
  simp only [List.isEmpty_cons, if_false, Bool.false_eq_true]
  rw [foldl_parse_eq_foldl_filterMap]

/-- Helper: the index.py next-id on a successful listing is one more than the
`max`-fold (from `0`) of the parsed ids. -/
lemma indexpy_next_eq (ks : List String) (t : Nat) :
    IndexPy.get_next_employee_id (some ks) t
      = (IndexPy.listedIds ks).foldl max 0 + 1 := by
  rw [IndexPy.get_next_employee_id, IndexPy.listedIds, foldl_parse_eq_foldl_filterMap]

/-- C2 counterexample: in the index.py revision, when no employee records
exist (the listing returns no keys) the assignment returns `1`, not the
claimed `0` (its running maximum starts at `0`, not `-1`). -/
theorem c2_counterexample : IndexPy.get_next_employee_id (some []) 0 ≠ 0 := by decide

/-- C2 (amended): in the enhanced revision, employee-id assignment returns
`0` when no employee records exist (and on a failed listing), is strictly
above every listed id, and is otherwise exactly `max + 1` (the value minus
one is itself a listed id); saving the assigned record (a key with the
company prefix that parses to the assigned id) and assigning again yields a
strictly larger id, so sequential assignments never repeat.  In the index.py
revision the assignment is strictly above every listed id but returns
`max(ids ∪ {0}) + 1`, hence `1`, not `0`, when no employee records exist. -/
theorem c2_employee_id_assignment (cid : String) (keys : List String) (k2 : String)
    (hparse : Enhanced.parseKey k2 = some (Enhanced.get_next_employee_id (some keys) cid))
    (hpre : (cid ++ "/employee_").data.isPrefixOf k2.data = true) :
    Enhanced.get_next_employee_id (some []) cid = 0
  ∧ Enhanced.get_next_employee_id none cid = 0
  ∧ (∀ i ∈ Enhanced.listedIds cid keys, i < Enhanced.get_next_employee_id (some keys) cid)
  ∧ (Enhanced.get_next_employee_id (some keys) cid = 0
      ∨ Enhanced.get_next_employee_id (some keys) cid - 1 ∈ Enhanced.listedIds cid keys)
  ∧ Enhanced.get_next_employee_id (some keys) cid
      < Enhanced.get_next_employee_id (some (k2 :: keys)) cid
  ∧ (∀ i ∈ IndexPy.listedIds keys, i < IndexPy.get_next_employee_id (some keys) 0)
  ∧ IndexPy.get_next_employee_id (some []) 0 = 1 := by
  refine ⟨rfl, rfl, ?_, ?_, ?_, ?_, rfl⟩
  · intro i hi
    cases keys with
    | nil => cases hi
    | cons k ks =>
      rw [enhanced_next_eq]
      have := mem_le_foldl_max (Enhanced.listedIds cid (k :: ks)) (-1) i hi
      omega
  · cases keys with
    | nil => exact Or.inl rfl
    | cons k ks =>
      rw [enhanced_next_eq]
      rcases foldl_max_mem_or_init (Enhanced.listedIds cid (k :: ks)) (-1) with h | h
      · rw [h]
        exact Or.inl rfl
      · right
        rw [add_sub_cancel_right]
        exact h
  · rw [enhanced_next_eq cid k2 keys]
    have hmem : Enhanced.get_next_employee_id (some keys) cid
        ∈ Enhanced.listedIds cid (k2 :: keys) := by
      rw [Enhanced.listedIds, List.filter_cons, hpre]
      simp only [if_true]
      rw [List.filterMap_cons, hparse]
      exact List.mem_cons_self _ _
    have := mem_le_foldl_max (Enhanced.listedIds cid (k2 :: keys)) (-1)
      (Enhanced.get_next_employee_id (some keys) cid) hmem
    omega
  · intro i hi
    rw [indexpy_next_eq]
    have := mem_le_foldl_max (IndexPy.listedIds keys) 0 i hi
    omega

/-- Witness for C2: one employee `0` exists; the next id is `1`; saving
`C1/employee_1.json` and assigning again gives an id above `1`. -/
theorem c2_employee_id_assignment_witness :
    Enhanced.parseKey "C1/employee_1.json"
      = some (Enhanced.get_next_employee_id (some ["C1/employee_0.json"]) "C1")
  ∧ Enhanced.get_next_employee_id (some ["C1/employee_0.json"]) "C1"
      < Enhanced.get_next_employee_id
          (some ["C1/employee_1.json", "C1/employee_0.json"]) "C1" := by
  have h1 : Enhanced.parseKey "C1/employee_1.json"
      = some (Enhanced.get_next_employee_id (some ["C1/employee_0.json"]) "C1") := by decide
  have h2 : ("C1" ++ "/employee_").data.isPrefixOf ("C1/employee_1.json").data = true := by
    decide
  exact ⟨h1,
    (c2_employee_id_assignment "C1" ["C1/employee_0.json"] "C1/employee_1.json" h1 h2).2.2.2.2.1⟩

/-- C3 counterexample: a stored index.py-scheme company blob carries
`timestamp = "2025-01-01T00:00:00"`, but `handle_save_company` (which never
reads the existing record) writes a record with no `timestamp` field at all,
so the stored timestamp is not preserved by the save. -/
theorem c3_counterexample :
    ((IndexPy.handle_save_company (some "C1") [] 1 "2025-01-02T00:00:00").written.map
        (fun p => p.2.timestamp)) = some none
  ∧ c3StoredRecord.timestamp = some "2025-01-01T00:00:00" := by decide

/-- C3 (amended): in the enhanced revision's `save_response`, a company save
over an existing record keeps the stored `timestamp` and refreshes only
`lastModified`; a first save stamps `timestamp` with the current time and a
repeated save keeps that first stamp.  In index.py's `handle_save_company`,
the record is rebuilt from the request alone and written with no `timestamp`
field, so a stored timestamp is not carried over (this revision never writes
one). -/
theorem c3_timestamp_preservation (cid : String) (rs : Responses) (fm : Option FileMetadata)
    (e : Enhanced.CompanyData) (t0 now now2 : String) (h : e.timestamp = some t0)
    (cid2 : Option String) (fd : Responses) (sec : Int) (now3 : String) :
    (Enhanced.save_company cid rs fm (some e) now).timestamp = some t0
  ∧ (Enhanced.save_company cid rs fm (some e) now).lastModified = now
  ∧ (Enhanced.save_company cid rs fm none now).timestamp = some now
  ∧ (Enhanced.save_company cid rs fm
        (some (Enhanced.save_company cid rs fm none now)) now2).timestamp = some now
  ∧ (∀ k r, (IndexPy.handle_save_company cid2 fd sec now3).written = some (k, r) →
        r.timestamp = none) := by
  refine ⟨?_, ?_, ?_, ?_, ?_⟩
  · cases fm <;> simp [Enhanced.save_company, h]
  · cases fm <;> simp [Enhanced.save_company]
  · cases fm <;> simp [Enhanced.save_company]
  · cases fm <;> simp [Enhanced.save_company]
  · intro k r hw
    by_cases hc : truthyStr cid2 = false
    · simp [IndexPy.handle_save_company, hc] at hw
    · simp [IndexPy.handle_save_company, hc] at hw
      rw [← hw.2]

/-- Witness for C3: the record created at `"T0"` keeps that timestamp across
a later save at `"T1"`. -/
theorem c3_timestamp_preservation_witness :
    c3EnhancedRecord.timestamp = some "T0"
  ∧ (Enhanced.save_company "C1" [] none (some c3EnhancedRecord) "T1").timestamp
      = some "T0" := by
  have h : c3EnhancedRecord.timestamp = some "T0" := by decide
  exact ⟨h, (c3_timestamp_preservation "C1" [] none c3EnhancedRecord "T0" "T1" "T2" h
    (some "C1") [] 1 "T3").1⟩

/-- C4 counterexample: `c4Record` (written by index.py's own form-submission
handler) has `completionPercentage = 100` and no completion flag; index.py's
`get_company_status` reports `companyInProgress = True` for it although the
percentage is not below 100 — the claimed biconditional fails. -/
theorem c4_counterexample :
    (IndexPy.get_company_status (S3Result.found c4Record)
        (S3Result.found [])).companyInProgress = true
  ∧ ¬ ((IndexPy.get_company_status (S3Result.found c4Record)
        (S3Result.found [])).completionPercentage < 100) := by
  have ha : answeredCount [("q1", JScalar.jstr "a")] = 1 := by decide
  have hpct : IndexPy.completionPct [("q1", JScalar.jstr "a")] = 100 := by
    rw [IndexPy.completionPct, ha]
    norm_num
  have hcomp : c4Record.completionPercentage = some 100 := by
    have hc : c4Record.completionPercentage
        = some (IndexPy.completionPct [("q1", JScalar.jstr "a")]) := rfl
    rw [hc, hpct]
  have hdone : c4Record.completed = none := by
    have hc : c4Record.completed
        = (if (false || false
              || (decide (IndexPy.completionPct [("q1", JScalar.jstr "a")] = 100) && !true))
              = true
           then some (JScalar.jbool true) else none) := rfl
    rw [hc]
    simp
  constructor
  · have hred : (IndexPy.get_company_status (S3Result.found c4Record)
          (S3Result.found [])).companyInProgress
        = (decide (c4Record.completionPercentage.getD 0 > 0)
            && !(c4Record.completed.getD (JScalar.jbool false)).truthy) := rfl
    rw [hred, hcomp, hdone, Option.getD_some, Option.getD_none]
    simp only [JScalar.truthy, Bool.not_false, Bool.and_true, decide_eq_true_eq]
    norm_num
  · have hred : (IndexPy.get_company_status (S3Result.found c4Record)
          (S3Result.found [])).completionPercentage
        = c4Record.completionPercentage.getD 0 := rfl
    rw [hred, hcomp, Option.getD_some]
    norm_num

/-- C4 (amended): for every record written by the enhanced revision's
company save, `inProgress` is true iff `0 < completionPercentage < 100` (and
such records always have `explicitlyCompleted = False`, so the "not
explicitly completed" conjunct holds for them); index.py's
`get_company_status` instead computes `companyInProgress` as
`completionPercentage > 0 and not completed`, with no upper bound, so it can
be true at 100%. -/
theorem c4_in_progress_iff (existing : Option Enhanced.CompanyData) (cid : String)
    (rs : Responses) (fm : Option FileMetadata) (now : String)
    (d : IndexPy.Record) (listing : S3Result (List String)) :
    ((Enhanced.save_company cid rs fm existing now).inProgress = true ↔
      (0 < (Enhanced.save_company cid rs fm existing now).completionPercentage
        ∧ (Enhanced.save_company cid rs fm existing now).completionPercentage < 100
        ∧ (Enhanced.save_company cid rs fm existing now).explicitlyCompleted = false))
  ∧ ((IndexPy.get_company_status (S3Result.found d) listing).companyInProgress = true ↔
      (0 < d.completionPercentage.getD 0
        ∧ (d.completed.getD (JScalar.jbool false)).truthy = false)) := by
  constructor
  · cases fm <;>
      simp [Enhanced.save_company, Bool.and_eq_true, decide_eq_true_eq, and_assoc]
  · have hred : (IndexPy.get_company_status (S3Result.found d) listing).companyInProgress
        = (decide (d.completionPercentage.getD 0 > 0)
            && !(d.completed.getD (JScalar.jbool false)).truthy) := rfl
    rw [hred]
    simp [Bool.and_eq_true, decide_eq_true_eq, Bool.not_eq_true']

/-- C7: in index.py's `handle_form_response`, the written record is marked
completed iff `completeAudit` or `forceComplete` is set, or the completion
percentage is exactly 100 and `preventAutoComplete` is not set; when marked
completed, `completedAt` is stamped with the current time, and otherwise
neither field is written. -/
theorem c7_completion_flag_resolution (cid ft : String) (rs : Responses) (eid : Option Int)
    (ca fc pac : Bool) (now : String) :
    ((IndexPy.form_response_record cid ft rs eid ca fc pac now).completed
        = some (JScalar.jbool true)
      ↔ (ca = true ∨ fc = true ∨ (IndexPy.completionPct rs = 100 ∧ pac = false)))
  ∧ ((IndexPy.form_response_record cid ft rs eid ca fc pac now).completed
        = some (JScalar.jbool true)
      → (IndexPy.form_response_record cid ft rs eid ca fc pac now).completedAt = some now)
  ∧ ((IndexPy.form_response_record cid ft rs eid ca fc pac now).completed = none
      → (IndexPy.form_response_record cid ft rs eid ca fc pac now).completedAt = none) := by
  have hiff : (ca || fc || (decide (IndexPy.completionPct rs = 100) && !pac)) = true
      ↔ (ca = true ∨ fc = true ∨ (IndexPy.completionPct rs = 100 ∧ pac = false)) := by
    simp [Bool.or_eq_true, Bool.and_eq_true, decide_eq_true_eq, Bool.not_eq_true', or_assoc]
  have hproj1 : (IndexPy.form_response_record cid ft rs eid ca fc pac now).completed
      = (if (ca || fc || (decide (IndexPy.completionPct rs = 100) && !pac)) = true
         then some (JScalar.jbool true) else none) := rfl
  have hproj2 : (IndexPy.form_response_record cid ft rs eid ca fc pac now).completedAt
      = (if (ca || fc || (decide (IndexPy.completionPct rs = 100) && !pac)) = true
         then some now else none) := rfl
  refine ⟨?_, ?_, ?_⟩
  · rw [hproj1]
    by_cases hb : (ca || fc || (decide (IndexPy.completionPct rs = 100) && !pac)) = true
    · rw [if_pos hb]
      exact iff_of_true rfl (hiff.mp hb)
    · rw [if_neg hb]
      exact iff_of_false (by simp) (fun hx => hb (hiff.mpr hx))
  · rw [hproj1, hproj2]
    by_cases hb : (ca || fc || (decide (IndexPy.completionPct rs = 100) && !pac)) = true
    · simp [hb]
    · simp [hb]
  · rw [hproj1, hproj2]
    by_cases hb : (ca || fc || (decide (IndexPy.completionPct rs = 100) && !pac)) = true
    · simp [hb]
    · simp [hb]

/-- Witness for C7: an explicit `completeAudit` marks the record completed. -/
theorem c7_completion_flag_resolution_witness :
    (IndexPy.form_response_record "C1" "company" [("q1", JScalar.jstr "a")] none true false
        false "T").completed = some (JScalar.jbool true) := by
  exact ((c7_completion_flag_resolution "C1" "company" [("q1", JScalar.jstr "a")] none true
    false false "T").1).mpr (Or.inl rfl)

/-- C10: every company save of the enhanced revision writes
`explicitlyCompleted = False` and reports the same in its response, whatever
the existing stored record held; the operation can never set or preserve a
true value. -/
theorem c10_save_always_clears_explicitly_completed (existing : Option Enhanced.CompanyData)
    (cid : String) (rs : Responses) (fm : Option FileMetadata) (now : String) :
    (Enhanced.save_company cid rs fm existing now).explicitlyCompleted = false
  ∧ (Enhanced.save_company_response cid rs fm existing now).explicitlyCompleted = false := by
  cases fm <;> simp [Enhanced.save_company, Enhanced.save_company_response]

/-- C5: every fetch handler of both revisions maps an absent storage key to
a 200 response with `found = False` and an explanatory message — never an
error status. -/
theorem c5_absent_key_is_200_found_false (cid eidS : String) (hc : cid ≠ "")
    (he : eidS ≠ "") :
    (Enhanced.get_company_data (some cid) S3Result.noSuchKey).statusCode = 200
  ∧ (Enhanced.get_company_data (some cid) S3Result.noSuchKey).found = some false
  ∧ (Enhanced.get_company_data (some cid) S3Result.noSuchKey).message.isSome = true
  ∧ (Enhanced.get_employee_data (some cid) (some eidS) S3Result.noSuchKey).statusCode = 200
  ∧ (Enhanced.get_employee_data (some cid) (some eidS) S3Result.noSuchKey).found
      = some false
  ∧ (Enhanced.get_employee_data (some cid) (some eidS) S3Result.noSuchKey).message.isSome
      = true
  ∧ (IndexPy.handle_get_company_request (some cid)
        (fun _ => S3Result.noSuchKey)).statusCode = 200
  ∧ (IndexPy.handle_get_company_request (some cid) (fun _ => S3Result.noSuchKey)).found
      = some false
  ∧ (IndexPy.handle_get_company_request (some cid)
        (fun _ => S3Result.noSuchKey)).message.isSome = true
  ∧ (IndexPy.handle_get_employee_request (some cid) (JScalar.jstr eidS)
        (fun _ => S3Result.noSuchKey)).statusCode = 200
  ∧ (IndexPy.handle_get_employee_request (some cid) (JScalar.jstr eidS)
        (fun _ => S3Result.noSuchKey)).found = some false
  ∧ (IndexPy.handle_get_employee_request (some cid) (JScalar.jstr eidS)
        (fun _ => S3Result.noSuchKey)).message.isSome = true := by
  have ht : truthyStr (some cid) = true := by simp [truthyStr, hc]
  have hte : (JScalar.jstr eidS).truthy = true := by simp [JScalar.truthy, he]
  simp [Enhanced.get_company_data, Enhanced.get_employee_data,
    IndexPy.handle_get_company_request, IndexPy.handle_get_employee_request,
    Enhanced.getOutBase, IndexPy.getOutBase, ht, hte]

/-- Witness for C5: concrete company `C1`, employee `7`. -/
theorem c5_absent_key_is_200_found_false_witness :
    (Enhanced.get_company_data (some "C1") S3Result.noSuchKey).statusCode = 200
  ∧ (IndexPy.handle_get_employee_request (some "C1") (JScalar.jstr "7")
        (fun _ => S3Result.noSuchKey)).found = some false := by
  obtain ⟨h1, h2, h3, h4, h5, h6, h7, h8, h9, h10, h11, h12⟩ :=
    c5_absent_key_is_200_found_false "C1" "7" (by decide) (by decide)
  exact ⟨h1, h11⟩

/-- C6 counterexample: a storage failure other than not-found
(`AccessDenied`) during the company read of enhanced `get_company_status` is
swallowed by its blanket `except ClientError: pass` — the handler answers
200 with defaults and no error message, instead of the claimed 500 carrying
the message. -/
theorem c6_counterexample :
    (Enhanced.get_company_status (some "C1") (S3Result.clientError "AccessDenied")
        (S3Result.found [])).statusCode = 200
  ∧ (Enhanced.get_company_status (some "C1") (S3Result.clientError "AccessDenied")
        (S3Result.found [])).error = none := by decide

/-- C6 (amended): the fetch handlers of both revisions catch only the
not-found signal and turn any other storage failure into a 500 carrying the
message (in the enhanced revision via `raise` to the top-level handler); but
the status/summary operations swallow every storage failure — enhanced
`get_company_status` catches all `ClientError`s and answers 200 with
defaults, and index.py's `get_company_status` returns the all-defaults dict
from its own `except Exception`. -/
theorem c6_storage_error_propagation (cid eidS e : String) (hc : cid ≠ "")
    (he : eidS ≠ "") :
    (Enhanced.get_company_data (some cid) (S3Result.clientError e)).statusCode = 500
  ∧ (Enhanced.get_company_data (some cid) (S3Result.clientError e)).error = some e
  ∧ (Enhanced.get_employee_data (some cid) (some eidS)
        (S3Result.clientError e)).statusCode = 500
  ∧ (Enhanced.get_employee_data (some cid) (some eidS) (S3Result.clientError e)).error
      = some e
  ∧ (IndexPy.handle_get_company_request (some cid)
        (fun _ => S3Result.clientError e)).statusCode = 500
  ∧ (IndexPy.handle_get_company_request (some cid) (fun _ => S3Result.clientError e)).error
      = some e
  ∧ (IndexPy.handle_get_employee_request (some cid) (JScalar.jstr eidS)
        (fun _ => S3Result.clientError e)).statusCode = 500
  ∧ (IndexPy.handle_get_employee_request (some cid) (JScalar.jstr eidS)
        (fun _ => S3Result.clientError e)).error = some e
  ∧ (Enhanced.get_company_status (some cid) (S3Result.clientError e)
        (S3Result.clientError e)).statusCode = 200
  ∧ (Enhanced.get_company_status (some cid) (S3Result.clientError e)
        (S3Result.clientError e)).error = none
  ∧ (IndexPy.get_company_status (S3Result.clientError e)
        (S3Result.found [])).companyInProgress = false
  ∧ (IndexPy.get_company_status (S3Result.clientError e)
        (S3Result.found [])).completionPercentage = 0 := by
  have ht : truthyStr (some cid) = true := by simp [truthyStr, hc]
  have hte : (JScalar.jstr eidS).truthy = true := by simp [JScalar.truthy, he]
  refine ⟨?_, ?_, ?_, ?_, ?_, ?_, ?_, ?_, ?_, ?_, rfl, rfl⟩ <;>
    simp [Enhanced.get_company_data, Enhanced.get_employee_data,
      IndexPy.handle_get_company_request, IndexPy.handle_get_employee_request,
      Enhanced.get_company_status, Enhanced.getOutBase, IndexPy.getOutBase, ht, hte]

/-- Witness for C6: concrete company `C1`, employee `7`, error message
`AccessDenied`. -/
theorem c6_storage_error_propagation_witness :
    (Enhanced.get_company_data (some "C1") (S3Result.clientError "AccessDenied")).statusCode
        = 500
  ∧ (Enhanced.get_company_status (some "C1") (S3Result.clientError "AccessDenied")
        (S3Result.clientError "AccessDenied")).statusCode = 200 := by
  obtain ⟨h1, h2, h3, h4, h5, h6, h7, h8, h9, h10, h11, h12⟩ :=
    c6_storage_error_propagation "C1" "7" "AccessDenied" (by decide) (by decide)
  exact ⟨h1, h9⟩

/-- C8 counterexample: in the enhanced revision a failed listing makes
`get_next_employee_id` return the constant `0` — not an identifier derived
from the current time.  `0` is the id of the first employee record, so
whenever any employee exists (here `C1/employee_0.json`) the fallback
guarantees a collision rather than avoiding one. -/
theorem c8_counterexample :
    Enhanced.get_next_employee_id none "C1" = 0
  ∧ Enhanced.get_next_employee_id (some ["C1/employee_0.json"]) "C1" = 1
  ∧ (0 : Int) ∈ Enhanced.listedIds "C1" ["C1/employee_0.json"] := by decide

/-- C8 (amended): on a storage listing failure the operation still succeeds
in both revisions; index.py falls back to the time-derived
`int(utcnow().timestamp()) % 10000` (a value in `[0, 10000)`), and a
new-employee form submission completes with status 200 and that id; the
enhanced revision instead falls back to the constant `0`. -/
theorem c8_listing_failure_fallback (t : Nat) (cid : String) (hc : cid ≠ "") :
    Enhanced.get_next_employee_id none cid = 0
  ∧ IndexPy.get_next_employee_id none t = (t : Int) % 10000
  ∧ 0 ≤ (t : Int) % 10000
  ∧ (t : Int) % 10000 < 10000
  ∧ (IndexPy.handle_form_response (some cid) (some "employee") [] none true false false
        false none t "T").statusCode = 200
  ∧ (IndexPy.handle_form_response (some cid) (some "employee") [] none true false false
        false none t "T").employeeId = some (some ((t : Int) % 10000)) := by
  have ht : truthyStr (some cid) = true := by simp [truthyStr, hc]
  refine ⟨rfl, rfl, Int.emod_nonneg _ (by norm_num), Int.emod_lt_of_pos _ (by norm_num),
    ?_, ?_⟩ <;>
    simp [IndexPy.handle_form_response, IndexPy.get_next_employee_id, truthyStr, ht, hc]

/-- Witness for C8: a concrete epoch second. -/
theorem c8_listing_failure_fallback_witness :
    IndexPy.get_next_employee_id none 123456 = (123456 : Int) % 10000 := by
  exact (c8_listing_failure_fallback 123456 "C1" (by decide)).2.1

/-- C9 counterexample: a `getEmployee` request with the integer `0` as
`employeeId` is answered with status 500 (the handler's `ValueError` lands
in its own `except Exception`), not with the claimed 400. -/
theorem c9_counterexample :
    (IndexPy.handle_get_employee_request (some "C1") (JScalar.jint 0)
        (fun _ => S3Result.noSuchKey)).statusCode = 500 := by decide

/-- C9 (amended): in index.py, a save-employee request with a falsy
`employeeId` (the integer `0`, the empty string, …) is rejected with status
400 reporting the id as missing, and a getEmployee request with a falsy id
is rejected with status 500 reporting the id as missing (its `ValueError`
is converted by the handler's own catch-all); in both cases no storage read
or write of the record is performed — even though `0` is a validly assigned
employee id. -/
theorem c9_falsy_employee_id_rejection (cid : String) (_hc : cid ≠ "") (eid : JScalar)
    (he : eid.truthy = false) (fd : Responses) (sec : Int) (now : String)
    (store : String → S3Result IndexPy.Record) :
    (IndexPy.handle_save_employee (some cid) eid fd sec now).statusCode = 400
  ∧ (IndexPy.handle_save_employee (some cid) eid fd sec now).error
      = some "Missing companyId or employeeId"
  ∧ (IndexPy.handle_save_employee (some cid) eid fd sec now).written = none
  ∧ (IndexPy.handle_get_employee_request (some cid) eid store).statusCode = 500
  ∧ (IndexPy.handle_get_employee_request (some cid) eid store).error
      = some "Missing companyId or employeeId"
  ∧ (IndexPy.handle_get_employee_request (some cid) eid store).s3Gets = [] := by
  simp [IndexPy.handle_save_employee, IndexPy.handle_get_employee_request, he,
    IndexPy.getOutBase]

/-- Witness for C9: `employeeId = 0`. -/
theorem c9_falsy_employee_id_rejection_witness :
    (IndexPy.handle_save_employee (some "C1") (JScalar.jint 0) [] 1 "T").statusCode = 400 := by
  exact (c9_falsy_employee_id_rejection "C1" (by decide) (JScalar.jint 0) (by decide) [] 1 "T"
    (fun _ => S3Result.noSuchKey)).1
